import Mathlib

/-!
# Verification of the DDalkkak-movie video composition stage

Shallow embedding of the repository's Python sources:
* `src/src/models.py` — the `Scene` / `Script` data model,
* `src/src/generators/video_composer.py` — subtitle overlay rendering,
  per-scene clip construction, fades, concatenation and resource cleanup,
* `src/src/pipeline.py` and `src/src/config.py` — resolution presets,
* `src/src/generators/script_generator.py` — placeholder script generation.

External library calls (PIL image loading / LANCZOS resampling, font glyph
rasterisation, moviepy audio decoding) are modelled as explicit parameters:
the embedding records exactly what the repository's own code does with their
results, never inventing behaviour for them.

Machine reals (Python floats for durations) are modelled as `ℚ`; all the
duration arithmetic in the source is plain addition, so exact rational
equality is a faithful strengthening of "within floating-point tolerance".
-/

set_option autoImplicit false

namespace DDalkkak

/-- An RGB pixel value, as stored in the numpy image arrays. -/
def Pixel : Type := ℕ × ℕ × ℕ

/-- fill colour used for the subtitle background band.
In the source the fill is `(0, 0, 0, 180)`; PIL draws it on the RGB frame
(the alpha component does not resize or reshape anything, so its exact
blending is irrelevant to every claim below and the written colour is kept
abstractly as the black component). -/
def bgFill : Pixel := (0, 0, 0)

/-- A raster frame: a numpy array `img_array` of shape `height × width × 3`.
Pixels are a total function on integer coordinates; drawing primitives guard
writes by the frame bounds, which is PIL's clipping behaviour. -/
structure Frame where
  width : ℕ
  height : ℕ
  px : ℤ → ℤ → Pixel

/-- Whether integer coordinates fall inside the frame (PIL clips drawing to
the image bounds). -/
def Frame.inBounds (f : Frame) (x y : ℤ) : Prop :=
  0 ≤ x ∧ x < (f.width : ℤ) ∧ 0 ≤ y ∧ y < (f.height : ℤ)

instance (f : Frame) (x y : ℤ) : Decidable (f.inBounds x y) := by
  unfold Frame.inBounds; infer_instance

/-- `draw.rectangle([(x0, y0), (x1, y1)], fill=c)`: in-place fill of the
(inclusive) rectangle, clipped to the image.  Only pixels change; the
array shape is untouched. -/
def drawRect (f : Frame) (x0 y0 x1 y1 : ℤ) (c : Pixel) : Frame :=
  { f with px := fun x y =>
      if f.inBounds x y ∧ x0 ≤ x ∧ x ≤ x1 ∧ y0 ≤ y ∧ y ≤ y1 then c else f.px x y }

/-- The externally-loaded font resource (`ImageFont.truetype` falling back to
`ImageFont.load_default`).  The repository only queries it for a bounding box
width (`draw.textbbox`) and hands it to `draw.text`; both are modelled:
`textWidth s` is `bbox[2] - bbox[0]` and `cover s dx dy` is the glyph
coverage of the rendered string at offset `(dx, dy)` from the text origin. -/
structure FontModel where
  textWidth : String → ℤ
  cover : String → ℤ → ℤ → Bool

/-- `draw.text((x, y), s, font=font, fill=c)`: in-place glyph rendering,
clipped to the image; covered pixels take the fill colour. -/
def drawText (font : FontModel) (f : Frame) (x y : ℤ) (s : String) (c : Pixel) : Frame :=
  { f with px := fun px0 py0 =>
      if f.inBounds px0 py0 ∧ font.cover s (px0 - x) (py0 - y) then c else f.px px0 py0 }

/-! ## Subtitle text wrapping (`_add_subtitle_to_image`, lines 43-57) -/

/-- `max_chars_per_line = 40` -/
def max_chars_per_line : ℕ := 40

/-- The sentence/clause break characters `" .,!?。，！？"` of line 49.
Python's `char in string` on a single character is membership among the
string's characters. -/
def breakChars : String := " .,!?。，！？"

/-- Python `str.strip()`: remove leading and trailing whitespace. -/
def pyStrip (s : String) : String :=
  ⟨((s.data.dropWhile Char.isWhitespace).reverse.dropWhile Char.isWhitespace).reverse⟩

/-- One iteration of the wrapping loop (lines 47-51): append the character to
`current_line`; once the line has reached `max_chars_per_line` characters and
the character is a break character, flush the stripped line. -/
def wrapStep (acc : List String × String) (c : Char) : List String × String :=
  let current := acc.2.push c
  if max_chars_per_line ≤ current.length ∧ breakChars.data.contains c then
    (acc.1 ++ [pyStrip current], "")
  else
    (acc.1, current)

/-- Lines 45-53 of `_add_subtitle_to_image`: greedy wrap of `text` breaking
only at punctuation once a line holds at least 40 characters, flushing any
non-empty remainder at the end. -/
def wrapText (text : String) : List String :=
  let r := text.toList.foldl wrapStep ([], "")
  if r.2 ≠ "" then r.1 ++ [pyStrip r.2] else r.1

/-- Lines 55-57: `if len(lines) > 2: lines = [lines[0], lines[1] + "..."]`.
The pattern `l0 :: l1 :: _ :: _` is exactly the lists of length `> 2`. -/
def capLines (ls : List String) : List String :=
  match ls with
  | l0 :: l1 :: _ :: _ => [l0, l1 ++ "..."]
  | _ => ls

/-! ## Data model (`models.py`) -/

/-- `Scene` of `models.py`: the artifact paths and the duration start unset
(`None`) and are filled in by the image / TTS stages.  `Path` values are
modelled by their string form; `not path` in Python is true exactly for
`None` (a `Path` object is always truthy), hence `Option`. -/
structure Scene where
  scene_number : ℕ
  narration : String
  image_prompt : String
  duration : Option ℚ := none
  image_path : Option String := none
  audio_path : Option String := none
  deriving DecidableEq

/-- `Script` of `models.py`. -/
structure Script where
  title : String
  scenes : List Scene := []
  deriving DecidableEq

/-- `Script.total_scenes`. -/
def Script.total_scenes (s : Script) : ℕ := s.scenes.length

/-- `Script.total_duration`: `sum(s.duration or 0 for s in self.scenes)`. -/
def Script.total_duration (s : Script) : ℚ :=
  (s.scenes.map fun sc => sc.duration.getD 0).sum

/-! ## Composer configuration (`VideoComposer.__init__`) -/

/-- The constructor parameters of `VideoComposer`, with the source defaults
(`DEFAULT_VIDEO_WIDTH`, `DEFAULT_VIDEO_HEIGHT`, `DEFAULT_FPS` from
`config.py`, and the keyword defaults of lines 22-29). -/
structure ComposerConfig where
  width : ℕ := 1920
  height : ℕ := 1080
  fps : ℕ := 30
  enable_subtitles : Bool := true
  enable_transitions : Bool := true
  transition_duration : ℚ := 1 / 2

/-! ## Subtitle overlay rendering (`_add_subtitle_to_image`, lines 59-95) -/

/-- `line_height = 45` -/
def line_height : ℤ := 45

/-- The loop body of lines 83-93: for line `i`, compute the text width from
the font bounding box, centre the line (`(self.width - text_width) // 2`,
Python floor division), then draw the dark shadow pass offset by `(2, 2)`
and the white text pass. -/
def renderLine (cfg : ComposerConfig) (font : FontModel) (y_start : ℤ)
    (f : Frame) (p : ℕ × String) : Frame :=
  let line := p.2
  let text_width := font.textWidth line
  let x := Int.fdiv ((cfg.width : ℤ) - text_width) 2
  let y := y_start + (p.1 : ℤ) * line_height
  let shadowed := drawText font f (x + 2) (y + 2) line (0, 0, 0)
  drawText font shadowed x y line (255, 255, 255)

/-- `_add_subtitle_to_image` (lines 38-95): wrap and cap the text, compute
the bottom-anchored background band (`y_start = self.height - total_height
- 60`, band from `y_start - padding` down to `self.height - 40`), fill it,
then render each line centred with a shadow pass.  The font fallback chain
of lines 60-66 always yields some font resource; it is the `font`
parameter.  Every drawing step is in place on the PIL image, so the frame
that comes back out of `np.array(img)` has the dimensions it went in with. -/
def add_subtitle_to_image (cfg : ComposerConfig) (font : FontModel)
    (frame : Frame) (text : String) : Frame :=
  let lines := capLines (wrapText text)
  let total_height : ℤ := lines.length * line_height
  let y_start : ℤ := (cfg.height : ℤ) - total_height - 60
  let padding : ℤ := 20
  let bg_top : ℤ := y_start - padding
  let bg_bottom : ℤ := (cfg.height : ℤ) - 40
  let banded := drawRect frame 0 bg_top (cfg.width : ℤ) bg_bottom bgFill
  lines.enum.foldl (renderLine cfg font y_start) banded

/-! ## Scene clip construction (`compose_scene`, lines 105-143) -/

/-- A moviepy `ImageClip` as the repository uses it: a still frame, a
duration (`set_duration`; `None` until set), the fade effects recorded on
it, and the attached audio track (`set_audio`, recorded by its path). -/
structure Clip where
  frame : Frame
  duration : Option ℚ := none
  fade_in : Option ℚ := none
  fade_out : Option ℚ := none
  audio : Option String := none

/-- The external media libraries: `Image.open` (a raster frame per path),
the LANCZOS resampling kernel of `img.resize` (pixels of the resized image;
`resize((w, h))` returns an image of exactly that size), and the font. -/
structure ExternalMedia where
  loadImage : String → Frame
  resample : Frame → ℕ → ℕ → ℤ → ℤ → Pixel
  font : FontModel

/-- `img.resize((width, height), Image.LANCZOS)`: the result has exactly the
requested dimensions; its pixel content comes from the library kernel. -/
def resizeFrame (ext : ExternalMedia) (f : Frame) (w h : ℕ) : Frame :=
  ⟨w, h, ext.resample f w h⟩

/-- `_create_fade_effect` (lines 97-103): `clip.fadein` /`clip.fadeout` are
applied only when the respective flag is set and `transition_duration > 0`;
each returns the clip with the effect recorded and everything else (in
particular the duration) unchanged. -/
def create_fade_effect (cfg : ComposerConfig) (clip : Clip)
    (fade_in fade_out : Bool) : Clip :=
  let clip :=
    if fade_in ∧ 0 < cfg.transition_duration then
      { clip with fade_in := some cfg.transition_duration }
    else clip
  if fade_out ∧ 0 < cfg.transition_duration then
    { clip with fade_out := some cfg.transition_duration }
  else clip

/-- The single error `compose_scene` can raise itself: the `ValueError` of
line 118, naming the offending scene's number. -/
inductive ComposeError where
  | missing_artifact (scene_number : ℕ)
  deriving DecidableEq

/-- Lines 126-127 of `compose_scene`: the subtitle overlay runs only when
subtitles are enabled and the narration is non-empty (Python truthiness of
`scene.narration`); otherwise the frame passes through untouched. -/
def sceneFrame (cfg : ComposerConfig) (font : FontModel) (frame : Frame)
    (narration : String) : Frame :=
  if cfg.enable_subtitles ∧ narration ≠ "" then
    add_subtitle_to_image cfg font frame narration
  else frame

/-- `compose_scene` (lines 105-143): validate the artifact references
(line 117: `if not scene.image_path or not scene.audio_path`), load and
resize the image, optionally overlay the subtitle, build the `ImageClip`
with `set_duration(scene.duration)`, apply the fade policy when
transitions are enabled (`fade_in = is_first`, `fade_out = is_last`), and
attach the scene audio. -/
def compose_scene (cfg : ComposerConfig) (ext : ExternalMedia) (scene : Scene)
    (is_first is_last : Bool) : Except ComposeError Clip :=
  if scene.image_path = none ∨ scene.audio_path = none then
    .error (.missing_artifact scene.scene_number)
  else
    let img := ext.loadImage (scene.image_path.getD "")
    let img := resizeFrame ext img cfg.width cfg.height
    let img := sceneFrame cfg ext.font img scene.narration
    let image_clip : Clip := { frame := img, duration := scene.duration }
    let image_clip :=
      if cfg.enable_transitions then
        create_fade_effect cfg image_clip is_first is_last
      else image_clip
    .ok { image_clip with audio := scene.audio_path }

/-! ## Sequence composition (`compose`, lines 145-192) -/

/-- The loop of lines 157-163: build one clip per scene in script order with
`is_first = (i == 0)` and `is_last = (i == total_scenes - 1)`; the first
failing scene aborts (a raised `ValueError` propagates out of the loop).
Recursively, the head is composed with the incoming `is_first` flag and
`is_last` exactly when no scenes remain. -/
def compose_clips (cfg : ComposerConfig) (ext : ExternalMedia) :
    List Scene → Bool → Except ComposeError (List Clip)
  | [], _ => .ok []
  | scene :: rest, is_first => do
      let clip ← compose_scene cfg ext scene is_first rest.isEmpty
      let clips ← compose_clips cfg ext rest false
      pure (clip :: clips)

/-- `concatenate_videoclips(clips, method="compose")`: the concatenated
timeline's total duration is the sum of the clip durations. -/
def concat_total_duration (clips : List Clip) : ℚ :=
  (clips.map fun c => c.duration.getD 0).sum

/-- The observable resource events of one `compose` invocation. -/
inductive RenderEvent where
  | build_clip (i : ℕ)
  | concatenate_clips
  | write_videofile
  | close_final
  | close_clip (i : ℕ)
  deriving DecidableEq

/-- The statement order of `compose` (lines 156-192) as an event trace:
build the clips, concatenate, call `write_videofile`, then — with no
`try`/`finally` around any of it — run `final_clip.close()` and the
per-clip `close()` loop.  A `write_videofile` failure raises, and the
exception propagates straight out of `compose`, so on the failing branch
nothing after the encode call executes. -/
def compose_trace (n : ℕ) (encode_ok : Bool) : List RenderEvent :=
  ((List.range n).map RenderEvent.build_clip)
    ++ [RenderEvent.concatenate_clips, RenderEvent.write_videofile]
    ++ (if encode_ok then
          RenderEvent.close_final :: (List.range n).map RenderEvent.close_clip
        else [])

/-! ## Resolution presets (`config.py` lines 29-34, `pipeline.py` line 38) -/

/-- `RESOLUTION_PRESETS` of `config.py` as dictionary lookup. -/
def RESOLUTION_PRESETS (r : String) : Option (ℕ × ℕ) :=
  if r = "720p" then some (1280, 720)
  else if r = "1080p" then some (1920, 1080)
  else if r = "1440p" then some (2560, 1440)
  else if r = "4k" then some (3840, 2160)
  else none

/-- Line 38 of `pipeline.py`:
`RESOLUTION_PRESETS.get(resolution, RESOLUTION_PRESETS["1080p"])`. -/
def pipeline_resolution (resolution : String) : ℕ × ℕ :=
  (RESOLUTION_PRESETS resolution).getD ((RESOLUTION_PRESETS "1080p").getD (0, 0))

/-! ## Script generation (`script_generator.py`) -/

/-- Line 33 of `ScriptGenerator.generate`:
`num_scenes = max(5, target_duration // 18)`. -/
def num_scenes_for (target_duration : ℕ) : ℕ :=
  max 5 (target_duration / 18)

/-- One scene of `_generate_placeholder` (lines 100-107). -/
def placeholder_scene (prompt : String) (i : ℕ) : Scene :=
  { scene_number := i + 1
    narration := "이것은 '" ++ prompt ++ "'에 대한 " ++ toString (i + 1)
      ++ "번째 장면입니다. 테스트용 나레이션입니다."
    image_prompt := "Scene " ++ toString (i + 1) ++ " about " ++ prompt
      ++ ", digital art, colorful" }

/-- `_generate_placeholder` (lines 97-108): `for i in range(min(num_scenes,
5))` — the requested count is capped at 5 for testing. -/
def generate_placeholder (prompt : String) (num_scenes : ℕ) : Script :=
  { title := "테스트: " ++ prompt
    scenes := (List.range (min num_scenes 5)).map (placeholder_scene prompt) }

/-- The placeholder branch of `ScriptGenerator.generate` (lines 33-37):
derive the scene count from the target duration, then delegate to
`_generate_placeholder`.  (The non-placeholder branch sends the derived
count to the external language model and parses its reply verbatim; it is
an external collaborator outside this model.) -/
def generate_placeholder_mode (prompt : String) (target_duration : ℕ) : Script :=
  generate_placeholder prompt (num_scenes_for target_duration)

/-! ## Concrete test fixtures (used by witnesses and counterexamples) -/

/-- A concrete stand-in for the external media libraries. -/
def testExt : ExternalMedia :=
  { loadImage := fun _ => ⟨1, 1, fun _ _ => (0, 0, 0)⟩
    resample := fun _ _ _ _ _ => (0, 0, 0)
    font := { textWidth := fun _ => 0, cover := fun _ _ _ => false } }

/-- A fully populated scene (image, audio and duration all resolved). -/
def testSceneA : Scene :=
  { scene_number := 1, narration := "", image_prompt := "p"
    duration := some 3, image_path := some "scene_1.png"
    audio_path := some "scene_1.mp3" }

/-- A second fully populated scene. -/
def testSceneB : Scene :=
  { testSceneA with
    scene_number := 2
    duration := some (5 / 2)
    image_path := some "scene_2.png"
    audio_path := some "scene_2.mp3" }

/-- A scene whose audio reference is still unset. -/
def testSceneNoAudio : Scene :=
  { scene_number := 7, narration := "n", image_prompt := "p"
    duration := some 1, image_path := some "scene_7.png" }

/-- A scene with both artifacts resolved but no duration yet. -/
def testSceneNoDuration : Scene :=
  { scene_number := 3, narration := "", image_prompt := "p"
    image_path := some "scene_3.png", audio_path := some "scene_3.mp3" }

/-- A text that wraps to three lines: three 40-character chunks, each ending
in a space once 40 characters have accumulated. -/
def threeLineText : String :=
  "aaaaaaaaaaaaaaaaaaaaaaaaaaaaaaaaaaaaaaa aaaaaaaaaaaaaaaaaaaaaaaaaaaaaaaaaaaaaaa aaaaaaaaaaaaaaaaaaaaaaaaaaaaaaaaaaaaaaa "

/-! ## Helper lemmas -/

/-- Drawing a rectangle changes pixels only, never the array shape. -/
theorem drawRect_width (f : Frame) (x0 y0 x1 y1 : ℤ) (c : Pixel) :
    (drawRect f x0 y0 x1 y1 c).width = f.width := rfl

theorem drawRect_height (f : Frame) (x0 y0 x1 y1 : ℤ) (c : Pixel) :
    (drawRect f x0 y0 x1 y1 c).height = f.height := rfl

/-- Rendering text changes pixels only, never the array shape. -/
theorem drawText_width (font : FontModel) (f : Frame) (x y : ℤ) (s : String)
    (c : Pixel) : (drawText font f x y s c).width = f.width := rfl

theorem drawText_height (font : FontModel) (f : Frame) (x y : ℤ) (s : String)
    (c : Pixel) : (drawText font f x y s c).height = f.height := rfl

theorem renderLine_width (cfg : ComposerConfig) (font : FontModel) (y0 : ℤ)
    (f : Frame) (p : ℕ × String) : (renderLine cfg font y0 f p).width = f.width := rfl

theorem renderLine_height (cfg : ComposerConfig) (font : FontModel) (y0 : ℤ)
    (f : Frame) (p : ℕ × String) : (renderLine cfg font y0 f p).height = f.height := rfl

/-- Folding the per-line rendering over any list of lines preserves the
frame dimensions. -/
theorem foldl_renderLine_dims (cfg : ComposerConfig) (font : FontModel) (y0 : ℤ) :
    ∀ (l : List (ℕ × String)) (f : Frame),
      (l.foldl (renderLine cfg font y0) f).width = f.width ∧
      (l.foldl (renderLine cfg font y0) f).height = f.height := by
  intro l
  induction l with
  | nil => intro f; exact ⟨rfl, rfl⟩
  | cons p rest ih =>
      intro f
      have h := ih (renderLine cfg font y0 f p)
      simpa [List.foldl_cons, renderLine_width, renderLine_height] using h

/-- `fadein`/`fadeout` leave the clip duration unchanged. -/
theorem create_fade_effect_duration (cfg : ComposerConfig) (clip : Clip)
    (fi fo : Bool) : (create_fade_effect cfg clip fi fo).duration = clip.duration := by
  unfold create_fade_effect
  split_ifs <;> rfl

theorem create_fade_effect_audio (cfg : ComposerConfig) (clip : Clip)
    (fi fo : Bool) : (create_fade_effect cfg clip fi fo).audio = clip.audio := by
  unfold create_fade_effect
  split_ifs <;> rfl

theorem create_fade_effect_fade_in (cfg : ComposerConfig) (clip : Clip)
    (fi fo : Bool) : (create_fade_effect cfg clip fi fo).fade_in =
      if fi = true ∧ 0 < cfg.transition_duration then some cfg.transition_duration
      else clip.fade_in := by
  unfold create_fade_effect
  split_ifs <;> rfl

theorem create_fade_effect_fade_out (cfg : ComposerConfig) (clip : Clip)
    (fi fo : Bool) : (create_fade_effect cfg clip fi fo).fade_out =
      if fo = true ∧ 0 < cfg.transition_duration then some cfg.transition_duration
      else clip.fade_out := by
  unfold create_fade_effect
  split_ifs <;> rfl

/-- Success shape of `compose_scene`: with both artifact references set the
clip is returned, its duration is the scene's `duration` field, its audio
is the scene's audio path, and its fades follow the
first/last/transitions-enabled/positive-duration policy. -/
theorem compose_scene_ok (cfg : ComposerConfig) (ext : ExternalMedia)
    (scene : Scene) (is_first is_last : Bool)
    (h1 : scene.image_path.isSome) (h2 : scene.audio_path.isSome) :
    ∃ c, compose_scene cfg ext scene is_first is_last = .ok c ∧
      c.duration = scene.duration ∧ c.audio = scene.audio_path ∧
      (c.fade_in = if cfg.enable_transitions = true ∧ is_first = true ∧
          0 < cfg.transition_duration then some cfg.transition_duration else none) ∧
      (c.fade_out = if cfg.enable_transitions = true ∧ is_last = true ∧
          0 < cfg.transition_duration then some cfg.transition_duration else none) := by
  obtain ⟨ip, hip⟩ := Option.isSome_iff_exists.mp h1
  obtain ⟨ap, hap⟩ := Option.isSome_iff_exists.mp h2
  have hguard : ¬(scene.image_path = none ∨ scene.audio_path = none) := by
    simp [hip, hap]
  unfold compose_scene
  rw [if_neg hguard]
  refine ⟨_, rfl, ?_, ?_, ?_, ?_⟩
  · by_cases hT : cfg.enable_transitions = true <;>
      simp [hT, create_fade_effect_duration]
  · rfl
  · by_cases hT : cfg.enable_transitions = true <;>
      simp [hT, create_fade_effect_fade_in]
  · by_cases hT : cfg.enable_transitions = true <;>
      simp [hT, create_fade_effect_fade_out]

/-- The composition loop on a script whose scenes all carry image and audio
references: it succeeds, clip durations mirror scene durations in order,
and the fades are exactly the first/last edge fades (relative to the
incoming `is_first` flag). -/
theorem compose_clips_spec (cfg : ComposerConfig) (ext : ExternalMedia) :
    ∀ (scenes : List Scene) (is_first : Bool),
      (∀ s ∈ scenes, s.image_path.isSome ∧ s.audio_path.isSome) →
      ∃ clips, compose_clips cfg ext scenes is_first = .ok clips ∧
        clips.map Clip.duration = scenes.map Scene.duration ∧
        ∀ i (hi : i < clips.length),
          ((clips.get ⟨i, hi⟩).fade_in =
            if cfg.enable_transitions = true ∧ (is_first = true ∧ i = 0) ∧
                0 < cfg.transition_duration then
              some cfg.transition_duration else none) ∧
          ((clips.get ⟨i, hi⟩).fade_out =
            if cfg.enable_transitions = true ∧ i = scenes.length - 1 ∧
                0 < cfg.transition_duration then
              some cfg.transition_duration else none) := by
  intro scenes
  induction scenes with
  | nil =>
      intro is_first _
      exact ⟨[], rfl, rfl, fun i hi => absurd hi (by simp)⟩
  | cons s rest ih =>
      intro is_first h
      obtain ⟨hs, hrest⟩ := List.forall_mem_cons.mp h
      obtain ⟨c, hc, hcd, _, hcfi, hcfo⟩ :=
        compose_scene_ok cfg ext s is_first rest.isEmpty hs.1 hs.2
      obtain ⟨clips, hclips, hmap, hfades⟩ := ih false hrest
      have hlen : clips.length = rest.length := by
        have := congrArg List.length hmap
        simpa using this
      refine ⟨c :: clips, ?_, ?_, ?_⟩
      · simp only [compose_clips, hc, hclips]
        rfl
      · simp [hcd, hmap]
      · intro i hi
        match i with
        | 0 =>
            have hget : (c :: clips).get ⟨0, hi⟩ = c := rfl
            constructor
            · rw [hget, hcfi]
              simp
            · rw [hget, hcfo]
              refine if_congr (and_congr Iff.rfl (and_congr ?_ Iff.rfl)) rfl rfl
              cases rest <;> simp
        | Nat.succ j =>
            have hj : j < clips.length := by
              have : j + 1 < clips.length + 1 := by
                simpa [hlen] using hi
              omega
            have hget : (c :: clips).get ⟨j + 1, hi⟩ = clips.get ⟨j, hj⟩ := rfl
            obtain ⟨hfi, hfo⟩ := hfades j hj
            constructor
            · rw [hget, hfi]
              simp
            · rw [hget, hfo]
              refine if_congr (and_congr Iff.rfl (and_congr ?_ Iff.rfl)) rfl rfl
              have : j < rest.length := hlen ▸ hj
              simp only [List.length_cons]
              omega

/-! ## Claim theorems -/

/-- C2: for every input text, the subtitle wrapping produces at most 2
displayed lines, and whenever the raw wrap would exceed 2 lines the second
displayed line ends with the `"..."` truncation marker. -/
theorem subtitle_wrapping_capped_at_two_lines (text : String) :
    (capLines (wrapText text)).length ≤ 2 ∧
    (2 < (wrapText text).length →
      ∃ l0 t, capLines (wrapText text) = [l0, t ++ "..."]) := by
  cases h : wrapText text with
  | nil => simp [capLines]
  | cons a tl =>
      cases tl with
      | nil => simp [capLines]
      | cons b tl2 =>
          cases tl2 with
          | nil => simp [capLines]
          | cons c l => exact ⟨by simp [capLines], fun _ => ⟨a, b, rfl⟩⟩

set_option maxRecDepth 100000 in
/-- Witness for C2 at a concrete overflowing text: three 40-character
chunks wrap to 3 raw lines, and the displayed result is 2 lines with the
second ending in the marker. -/
theorem subtitle_wrapping_capped_at_two_lines_witness :
    2 < (wrapText threeLineText).length ∧
    (capLines (wrapText threeLineText)).length ≤ 2 ∧
    (∃ l0 t, capLines (wrapText threeLineText) = [l0, t ++ "..."]) :=
  ⟨by decide, (subtitle_wrapping_capped_at_two_lines threeLineText).1,
    (subtitle_wrapping_capped_at_two_lines threeLineText).2 (by decide)⟩

/-- C6: with an empty narration string the overlay step of `compose_scene`
is skipped entirely and the frame passes through pixel-identical. -/
theorem empty_narration_leaves_frame_unchanged (cfg : ComposerConfig)
    (font : FontModel) (frame : Frame) :
    sceneFrame cfg font frame "" = frame := by
  simp [sceneFrame]

/-- C7: requesting "4k" configures a 3840×2160 output frame, and every
resolution key outside the four presets falls back to 1920×1080. -/
theorem resolution_selection :
    pipeline_resolution "4k" = (3840, 2160) ∧
    ∀ r : String, r ∉ ["720p", "1080p", "1440p", "4k"] →
      pipeline_resolution r = (1920, 1080) := by
  refine ⟨rfl, ?_⟩
  intro r hr
  simp only [List.mem_cons, List.mem_singleton, not_or] at hr
  obtain ⟨h1, h2, h3, h4⟩ := hr
  simp [pipeline_resolution, RESOLUTION_PRESETS, h1, h2, h3, h4]

/-- Witness for C7 at the concrete unrecognized key "dvd". -/
theorem resolution_selection_witness :
    pipeline_resolution "4k" = (3840, 2160) ∧
    "dvd" ∉ ["720p", "1080p", "1440p", "4k"] ∧
    pipeline_resolution "dvd" = (1920, 1080) :=
  ⟨resolution_selection.1, by decide, resolution_selection.2 "dvd" (by decide)⟩

/-- C9: the subtitle overlay renderer returns a frame of exactly the input
frame's dimensions, for every frame and every text. -/
theorem overlay_preserves_frame_dimensions (cfg : ComposerConfig)
    (font : FontModel) (frame : Frame) (text : String) :
    (add_subtitle_to_image cfg font frame text).width = frame.width ∧
    (add_subtitle_to_image cfg font frame text).height = frame.height :=
  foldl_renderLine_dims cfg font _ _ _

/-- C1: on a script whose scenes all have image, audio and duration
resolved, composition succeeds, each clip's duration equals its scene's
duration (which the TTS stage set to the decoded audio length), and the
concatenated total duration is the script's total duration — the sum of
the per-scene audio durations, here as exact rationals. -/
theorem composed_duration_is_sum_of_scene_durations (cfg : ComposerConfig)
    (ext : ExternalMedia) (script : Script)
    (h : ∀ s ∈ script.scenes,
      s.image_path.isSome ∧ s.audio_path.isSome ∧ s.duration.isSome) :
    ∃ clips, compose_clips cfg ext script.scenes true = .ok clips ∧
      clips.map Clip.duration = script.scenes.map Scene.duration ∧
      concat_total_duration clips = script.total_duration := by
  obtain ⟨clips, hok, hmap, -⟩ :=
    compose_clips_spec cfg ext script.scenes true
      (fun s hs => ⟨(h s hs).1, (h s hs).2.1⟩)
  refine ⟨clips, hok, hmap, ?_⟩
  have := congrArg (fun l => (l.map fun d : Option ℚ => d.getD 0).sum) hmap
  simpa [concat_total_duration, Script.total_duration, List.map_map,
    Function.comp] using this

/-- Witness for C1: a two-scene script with durations 3 and 5/2 composes to
clips with those durations summing to the script total. -/
theorem composed_duration_is_sum_of_scene_durations_witness :
    ∃ clips, compose_clips {} testExt
        (Script.mk "t" [testSceneA, testSceneB]).scenes true = .ok clips ∧
      clips.map Clip.duration =
        (Script.mk "t" [testSceneA, testSceneB]).scenes.map Scene.duration ∧
      concat_total_duration clips =
        (Script.mk "t" [testSceneA, testSceneB]).total_duration :=
  composed_duration_is_sum_of_scene_durations {} testExt
    (Script.mk "t" [testSceneA, testSceneB]) (by decide)

/-- The composer configuration refuting C3 as stated: transitions are
enabled, but `transition_duration` is 0, so `_create_fade_effect` applies
no fade at all — not even to the first and last scenes. -/
def zeroFadeCfg : ComposerConfig := { transition_duration := 0 }

/-- C3 counterexample: with transitions enabled, a zero transition duration
and 2 scenes, the first scene's clip receives no fade-in (and the last no
fade-out): the fade guard of lines 99-102 also requires
`transition_duration > 0`. -/
theorem fade_policy_counterexample :
    zeroFadeCfg.enable_transitions = true ∧
    1 < ([testSceneA, testSceneB] : List Scene).length ∧
    (compose_clips zeroFadeCfg testExt [testSceneA, testSceneB] true).toOption.map
        (List.map Clip.fade_in) = some [none, none] ∧
    (compose_clips zeroFadeCfg testExt [testSceneA, testSceneB] true).toOption.map
        (List.map Clip.fade_out) = some [none, none] :=
  ⟨rfl, by decide, rfl, rfl⟩

/-- C3 amended: with transitions enabled, a positive transition duration
and N > 1 scenes with artifacts resolved, exactly the first clip gets a
fade-in and exactly the last clip gets a fade-out; interior clips get
neither. -/
theorem fade_policy (cfg : ComposerConfig) (ext : ExternalMedia)
    (scenes : List Scene)
    (hT : cfg.enable_transitions = true) (hD : 0 < cfg.transition_duration)
    (_hN : 1 < scenes.length)
    (h : ∀ s ∈ scenes, s.image_path.isSome ∧ s.audio_path.isSome) :
    ∃ clips, compose_clips cfg ext scenes true = .ok clips ∧
      clips.length = scenes.length ∧
      ∀ i (hi : i < clips.length),
        ((clips.get ⟨i, hi⟩).fade_in =
          if i = 0 then some cfg.transition_duration else none) ∧
        ((clips.get ⟨i, hi⟩).fade_out =
          if i = scenes.length - 1 then some cfg.transition_duration else none) := by
  obtain ⟨clips, hok, hmap, hfades⟩ := compose_clips_spec cfg ext scenes true h
  have hlen : clips.length = scenes.length := by
    simpa using congrArg List.length hmap
  refine ⟨clips, hok, hlen, ?_⟩
  intro i hi
  obtain ⟨hfi, hfo⟩ := hfades i hi
  constructor
  · rw [hfi]
    refine if_congr ?_ rfl rfl
    simp [hT, hD]
  · rw [hfo]
    refine if_congr ?_ rfl rfl
    simp [hT, hD]

/-- Witness for C3 (amended) at the default configuration and a concrete
two-scene script. -/
theorem fade_policy_witness :
    ∃ clips, compose_clips {} testExt [testSceneA, testSceneB] true = .ok clips ∧
      clips.length = ([testSceneA, testSceneB] : List Scene).length ∧
      ∀ i (hi : i < clips.length),
        ((clips.get ⟨i, hi⟩).fade_in =
          if i = 0 then some ({} : ComposerConfig).transition_duration else none) ∧
        ((clips.get ⟨i, hi⟩).fade_out =
          if i = ([testSceneA, testSceneB] : List Scene).length - 1
          then some ({} : ComposerConfig).transition_duration else none) :=
  fade_policy {} testExt [testSceneA, testSceneB] rfl
    (by norm_num : (0 : ℚ) < 1 / 2) (by decide) (by decide)

/-- C4: `compose_scene` raises the validation error naming the scene
exactly when the image or audio reference is unset; with both set it
returns a clip. -/
theorem compose_scene_validation (cfg : ComposerConfig) (ext : ExternalMedia)
    (scene : Scene) (is_first is_last : Bool) :
    (compose_scene cfg ext scene is_first is_last =
        .error (.missing_artifact scene.scene_number) ↔
      (scene.image_path = none ∨ scene.audio_path = none)) ∧
    (scene.image_path ≠ none → scene.audio_path ≠ none →
      ∃ c, compose_scene cfg ext scene is_first is_last = .ok c) := by
  by_cases hg : scene.image_path = none ∨ scene.audio_path = none
  · refine ⟨⟨fun _ => hg, fun _ => ?_⟩, fun h1 h2 => absurd hg (by simp [h1, h2])⟩
    unfold compose_scene
    rw [if_pos hg]
  · constructor
    · constructor
      · intro he
        exfalso
        unfold compose_scene at he
        rw [if_neg hg] at he
        exact Except.noConfusion he
      · intro hgg
        exact absurd hgg hg
    · intro _ _
      unfold compose_scene
      rw [if_neg hg]
      exact ⟨_, rfl⟩

/-- Witness for C4: a concrete scene without audio is rejected with its
scene number, and a concrete complete scene is accepted. -/
theorem compose_scene_validation_witness :
    compose_scene {} testExt testSceneNoAudio true false =
      .error (.missing_artifact testSceneNoAudio.scene_number) ∧
    (∃ c, compose_scene {} testExt testSceneA true false = .ok c) :=
  ⟨(compose_scene_validation {} testExt testSceneNoAudio true false).1.mpr
      (by decide),
   (compose_scene_validation {} testExt testSceneA true false).2
      (by decide) (by decide)⟩

/-- C5 counterexample: with one scene and a failing encode, the scene
clip's `close()` never runs — the cleanup of lines 188-190 is not inside
any `try`/`finally`, so a `write_videofile` exception skips it. -/
theorem clip_release_counterexample :
    RenderEvent.close_clip 0 ∉ compose_trace 1 false := by decide

/-- C5 amended: when the encode succeeds, every intermediate scene clip is
closed after the encoding step. -/
theorem clips_released_on_successful_encode (n i : ℕ) (h : i < n) :
    RenderEvent.close_clip i ∈ compose_trace n true := by
  simp only [compose_trace, if_pos, List.mem_append, List.mem_cons,
    List.mem_map, List.mem_range]
  exact Or.inr (Or.inr ⟨i, h, rfl⟩)

/-- Witness for C5 (amended) at three scenes. -/
theorem clips_released_on_successful_encode_witness :
    RenderEvent.close_clip 2 ∈ compose_trace 3 true :=
  clips_released_on_successful_encode 3 2 (by decide)

/-- C8 counterexample: at target duration 180 the derived count
`max(5, 180 // 18)` is 10, but the placeholder script generator produces
only `min(10, 5) = 5` scenes (the cap of line 100). -/
theorem scene_count_counterexample :
    (generate_placeholder_mode "topic" 180).total_scenes ≠ num_scenes_for 180 := by
  decide

/-- C8 amended: the generator derives the requested scene count as
`max(5, target // 18)`, but the placeholder script it produces always has
exactly `min(requested, 5) = 5` scenes; their scene numbers are strictly
increasing starting at 1.  (The non-placeholder path forwards the derived
count to the external language model and keeps its scene numbers
verbatim.) -/
theorem placeholder_scene_numbering (prompt : String) (target_duration : ℕ) :
    (generate_placeholder_mode prompt target_duration).total_scenes
        = min (num_scenes_for target_duration) 5 ∧
    (generate_placeholder_mode prompt target_duration).total_scenes = 5 ∧
    ∀ i (hi : i < (generate_placeholder_mode prompt target_duration).scenes.length),
      ((generate_placeholder_mode prompt target_duration).scenes.get
        ⟨i, hi⟩).scene_number = i + 1 := by
  refine ⟨?_, ?_, ?_⟩
  · simp [generate_placeholder_mode, generate_placeholder, Script.total_scenes]
  · simp only [generate_placeholder_mode, generate_placeholder,
      Script.total_scenes, List.length_map, List.length_range, num_scenes_for]
    omega
  · intro i hi
    simp [generate_placeholder_mode, generate_placeholder, placeholder_scene]

/-- Witness for C8 (amended) at a concrete prompt and target duration. -/
theorem placeholder_scene_numbering_witness :
    (generate_placeholder_mode "t" 90).total_scenes = 5 ∧
    ((generate_placeholder_mode "t" 90).scenes.get ⟨0, by decide⟩).scene_number
      = 0 + 1 :=
  ⟨(placeholder_scene_numbering "t" 90).2.1,
   (placeholder_scene_numbering "t" 90).2.2 0 (by decide)⟩

/-- C10: the precondition of `compose_scene` tests only the artifact
references — a scene with both set but no duration passes validation and
yields a clip whose duration is unset. -/
theorem validation_ignores_duration (cfg : ComposerConfig) (ext : ExternalMedia)
    (scene : Scene) (is_first is_last : Bool)
    (h1 : scene.image_path.isSome) (h2 : scene.audio_path.isSome)
    (h3 : scene.duration = none) :
    ∃ c, compose_scene cfg ext scene is_first is_last = .ok c ∧
      c.duration = none := by
  obtain ⟨c, hc, hcd, -, -, -⟩ :=
    compose_scene_ok cfg ext scene is_first is_last h1 h2
  exact ⟨c, hc, hcd.trans h3⟩

/-- Witness for C10 at a concrete duration-less scene. -/
theorem validation_ignores_duration_witness :
    ∃ c, compose_scene {} testExt testSceneNoDuration true false = .ok c ∧
      c.duration = none :=
  validation_ignores_duration {} testExt testSceneNoDuration true false
    (by decide) (by decide) (by decide)

end DDalkkak
